import Mathlib

/-!
Verification of the Azure SQL management MCP server
(`azure_sql_server-mini.py`) against its design specification.

The Python module is a thin CRUD wrapper: a startup lifespan resolver builds
an `AzureContext` from environment configuration, and six tool handlers, two
resource endpoints and one prompt template read that context and call the
external Azure management SDK.

Shallow embedding conventions:
- The external Azure SDK (an out-of-scope collaborator) is modelled as two
  records of oracle functions (`SqlApi`, `ResourceApi`) whose calls return
  `Except AzureError _`; a Python exception raised by an SDK call is the
  `.error` case.
- Python truthiness on optional strings (`if not subscription_id`,
  `if tags:`, `if resource_group:`) is modelled explicitly: both `None` and
  the empty string are falsy.
- `json.loads` (Python standard library, external to the repository) is a
  parameter `parseJson : String → Option TagDict`; `none` models
  `json.JSONDecodeError`.
- Each handler returns its text result together with the trace of external
  API calls it issued; each trace entry records the call and the fault the
  call raised, if any.  A handler is a total Lean function, so a raised
  fault by construction never propagates past it — the content to check is
  which text comes back.
- Construction of credential / client objects at startup can itself raise;
  which constructor raises is modelled by `CtorFaults` flags, and the
  `try:` block of `azure_lifespan` aborts at the first raising step,
  keeping exactly the assignments already executed.
-/

namespace AzureSqlMcp

/-- Faults raised by external Azure SDK calls: `ResourceNotFoundError`
(from `azure.core.exceptions`) is distinguished because `create_database`
catches it separately; every other exception is `other`.  The payload is
`str(e)`. -/
inductive AzureError where
  | resourceNotFound (msg : String)
  | other (msg : String)
deriving DecidableEq, Repr

/-- Python `str(e)` on the exception. -/
def AzureError.toMessage : AzureError → String
  | .resourceNotFound m => m
  | .other m => m

/-- Tag dictionary produced by `json.loads` on the `tags` argument. -/
def TagDict := List (String × String)
deriving DecidableEq

/-- Resource-group object returned by the management API
(`resource_groups.list`).  `tags` is `none` when `rg.tags` is falsy
(Python `None` or `{}`); otherwise it holds the rendered dictionary. -/
structure ResourceGroup where
  name : String
  location : String
  tags : Option String
deriving DecidableEq

/-- Parameters passed to `resource_groups.create_or_update`
(`rg_params` in the source). -/
structure RgParams where
  location : String
  tags : TagDict
deriving DecidableEq

/-- SQL server object returned by the management API. -/
structure Server where
  name : String
  location : String
  id : String
  state : String
  version : String
  administrator_login : String
  fully_qualified_domain_name : String
deriving DecidableEq

/-- Parameters passed to `servers.begin_create_or_update`
(`server_params` in the source). -/
structure ServerParams where
  location : String
  version : String
  administrator_login : String
  administrator_login_password : String
deriving DecidableEq

/-- Result of `servers.check_name_availability`. -/
structure Availability where
  available : Bool
  message : String
deriving DecidableEq

/-- Database sku (`db.sku`), with `name` the service objective and `tier`
the edition. -/
structure Sku where
  name : String
  tier : String
deriving DecidableEq

/-- Database object returned by the management API.  Optional fields are
`none` when the SDK attribute is Python-falsy. -/
structure Database where
  name : String
  location : String
  status : String
  sku : Option Sku
  current_service_objective_name : Option String
  max_size_bytes : Option Nat
  creation_date : Option String
deriving DecidableEq

/-- Parameters passed to `databases.begin_create_or_update`
(`db_params` in the source): `location`, `sku.name` (service objective)
and `sku.tier` (edition). -/
structure DbParams where
  location : String
  sku_name : String
  sku_tier : String
deriving DecidableEq

/-- One external management-API call, with its arguments, as issued by a
handler. -/
inductive ApiCall where
  | resourceGroupsList
  | resourceGroupsCreateOrUpdate (resource_group_name : String) (parameters : RgParams)
  | serversList
  | serversListByResourceGroup (resource_group : String)
  | checkNameAvailability (server_name : String)
  | serversBeginCreateOrUpdate (resource_group_name server_name : String) (parameters : ServerParams)
  | serversGet (resource_group_name server_name : String)
  | databasesListByServer (resource_group_name server_name : String)
  | databasesBeginCreateOrUpdate (resource_group_name server_name database_name : String) (parameters : DbParams)
deriving DecidableEq

/-- Trace entry: an external API call together with the fault it raised
(`none` when the call succeeded). -/
structure ApiEvent where
  call : ApiCall
  fault : Option AzureError
deriving DecidableEq

/-- Oracle for the sql-management client (`SqlManagementClient`): each
field models one SDK operation the handlers use, returning either a result
or the fault the call raises.  Long-running operations
(`begin_create_or_update` + `operation.result()`) are folded into a single
synchronous-to-completion call, as the spec's external-interface contract
states. -/
structure SqlApi where
  servers_list : Except AzureError (List Server)
  servers_list_by_resource_group : String → Except AzureError (List Server)
  servers_check_name_availability : String → Except AzureError Availability
  servers_begin_create_or_update : String → String → ServerParams → Except AzureError Server
  servers_get : String → String → Except AzureError Server
  databases_list_by_server : String → String → Except AzureError (List Database)
  databases_begin_create_or_update : String → String → String → DbParams → Except AzureError Database

/-- Oracle for the resource-management client (`ResourceManagementClient`). -/
structure ResourceApi where
  resource_groups_list : Except AzureError (List ResourceGroup)
  resource_groups_create_or_update : String → RgParams → Except AzureError ResourceGroup

/-- Credential chosen by the startup resolver. -/
inductive Credential where
  | clientSecretCredential (tenant_id client_id client_secret : String)
  | defaultAzureCredential

/-- AzureContext dataclass: all fields default to `None` and are assigned
inside the lifespan's `try:` block. -/
structure AzureContext where
  sql_client : Option SqlApi := none
  resource_client : Option ResourceApi := none
  subscription_id : Option String := none
  credential : Option Credential := none

/-- Environment configuration read once at startup via `os.getenv`. -/
structure Env where
  subscription_id : Option String
  tenant_id : Option String
  client_id : Option String
  client_secret : Option String

/-- Python truthiness of an optional string: `None` and `""` are falsy. -/
def truthy : Option String → Bool
  | none => false
  | some s => s ≠ ""

/-- Which constructor calls raise inside the lifespan's `try:` block:
credential construction (`ClientSecretCredential` / `DefaultAzureCredential`),
`SqlManagementClient`, `ResourceManagementClient`. -/
structure CtorFaults where
  credential_fails : Bool
  sql_client_fails : Bool
  resource_client_fails : Bool

/-- Startup resolver `azure_lifespan`: builds the context yielded to every
invocation.  If the subscription id is falsy it yields the empty context at
once.  Otherwise the `try:` block assigns, in source order, `credential`,
`subscription_id`, `sql_client`, `resource_client`; the first constructor
that raises aborts the block (the warning is logged and the context as
assigned so far is yielded).  `sqlApi` / `resApi` stand for the client
objects a successful construction produces. -/
def azure_lifespan (env : Env) (f : CtorFaults) (sqlApi : SqlApi) (resApi : ResourceApi) :
    AzureContext :=
  let context : AzureContext := {}
  if ¬ truthy env.subscription_id then context
  else
    if f.credential_fails then context
    else
      let cred : Credential :=
        if truthy env.tenant_id ∧ truthy env.client_id ∧ truthy env.client_secret then
          Credential.clientSecretCredential (env.tenant_id.getD "") (env.client_id.getD "")
            (env.client_secret.getD "")
        else Credential.defaultAzureCredential
      let context1 : AzureContext :=
        { context with credential := some cred, subscription_id := env.subscription_id }
      if f.sql_client_fails then context1
      else
        let context2 : AzureContext := { context1 with sql_client := some sqlApi }
        if f.resource_client_fails then context2
        else { context2 with resource_client := some resApi }

/-- Line block for one resource group in the `list_resource_groups`
listing (`rg.tags or 'None'` renders falsy tags as `None`). -/
def formatResourceGroup (rg : ResourceGroup) : List String :=
  ["Name: " ++ rg.name,
   "Location: " ++ rg.location,
   "Tags: " ++ (match rg.tags with | some t => t | none => "None"),
   String.mk (List.replicate 30 '-')]

/-- Tool `list_resource_groups`. -/
def list_resource_groups (ctx : AzureContext) : String × List ApiEvent :=
  match ctx.resource_client with
  | none => ("Error: Azure client not initialized. Please check your credentials.", [])
  | some api =>
    match api.resource_groups_list with
    | .error e =>
        ("Failed to list resource groups: " ++ e.toMessage,
         [⟨.resourceGroupsList, some e⟩])
    | .ok resource_groups =>
        if resource_groups.isEmpty then
          ("No resource groups found in the subscription.", [⟨.resourceGroupsList, none⟩])
        else
          (String.intercalate "\n"
             (["RESOURCE GROUPS", String.mk (List.replicate 50 '=')] ++
              (resource_groups.map formatResourceGroup).flatten),
           [⟨.resourceGroupsList, none⟩])

/-- Tool `create_resource_group`.  `parseJson` models `json.loads`; the
`tags` string is parsed only when truthy (Python `if tags:`), and a parse
failure returns the JSON-format error before any API call. -/
def create_resource_group (parseJson : String → Option TagDict) (ctx : AzureContext)
    (name location : String) (tags : Option String) : String × List ApiEvent :=
  match ctx.resource_client with
  | none => ("Error: Azure client not initialized. Please check your credentials.", [])
  | some api =>
    let tagResult : Except Unit TagDict :=
      match tags with
      | none => .ok []
      | some t =>
          if t = "" then .ok []
          else
            match parseJson t with
            | some d => .ok d
            | none => .error ()
    match tagResult with
    | .error _ => ("Error: Tags must be valid JSON format", [])
    | .ok tag_dict =>
      let rg_params : RgParams := ⟨location, tag_dict⟩
      match api.resource_groups_create_or_update name rg_params with
      | .error e =>
          ("Failed to create resource group: " ++ e.toMessage,
           [⟨.resourceGroupsCreateOrUpdate name rg_params, some e⟩])
      | .ok _ =>
          ("Resource group '" ++ name ++ "' created successfully in " ++ location,
           [⟨.resourceGroupsCreateOrUpdate name rg_params, none⟩])

/-- Line block for one server in the `list_sql_servers` listing.  Server
ids are ARM resource paths, so `server.id.split('/')[4]` is the resource
group segment; well-formed ids have at least five segments, so the indexing
is modelled with `getD`. -/
def formatServer (server : Server) : List String :=
  ["Name: " ++ server.name,
   "Location: " ++ server.location,
   "Resource Group: " ++ (server.id.splitOn "/").getD 4 "",
   "State: " ++ server.state,
   "Version: " ++ server.version,
   "Admin Login: " ++ server.administrator_login,
   "Fully Qualified Domain Name: " ++ server.fully_qualified_domain_name,
   String.mk (List.replicate 50 '-')]

/-- Success / empty listing text of `list_sql_servers`; `resource_group`
here is the already-truthiness-filtered filter. -/
def formatServerListing (servers : List Server) (resource_group : Option String) : String :=
  if servers.isEmpty then
    let location_msg :=
      match resource_group with
      | some rg => " in resource group '" ++ rg ++ "'"
      | none => ""
    "No SQL servers found" ++ location_msg ++ "."
  else
    String.intercalate "\n"
      (["SQL SERVERS", String.mk (List.replicate 50 '=')] ++ (servers.map formatServer).flatten)

/-- Tool `list_sql_servers`.  `if resource_group:` is Python truthiness, so
an empty-string filter behaves like an absent one. -/
def list_sql_servers (ctx : AzureContext) (resource_group : Option String) :
    String × List ApiEvent :=
  match ctx.sql_client with
  | none => ("Error: Azure SQL client not initialized. Please check your credentials.", [])
  | some api =>
    let rgFilter : Option String :=
      match resource_group with
      | some rg => if rg = "" then none else some rg
      | none => none
    match rgFilter with
    | some rg =>
      match api.servers_list_by_resource_group rg with
      | .error e =>
          ("Failed to list SQL servers: " ++ e.toMessage,
           [⟨.serversListByResourceGroup rg, some e⟩])
      | .ok servers =>
          (formatServerListing servers (some rg), [⟨.serversListByResourceGroup rg, none⟩])
    | none =>
      match api.servers_list with
      | .error e =>
          ("Failed to list SQL servers: " ++ e.toMessage, [⟨.serversList, some e⟩])
      | .ok servers =>
          (formatServerListing servers none, [⟨.serversList, none⟩])

/-- Success text of `create_sql_server` (triple-quoted f-string with its
literal indentation). -/
def createServerSuccessText (server : Server) : String :=
  "SQL Server created successfully!\n" ++
  "                    Name: " ++ server.name ++ "\n" ++
  "                    Location: " ++ server.location ++ "\n" ++
  "                    State: " ++ server.state ++ "\n" ++
  "                    FQDN: " ++ server.fully_qualified_domain_name ++ "\n" ++
  "                    Admin Login: " ++ server.administrator_login ++ "\n\n" ++
  "                    Next steps:\n" ++
  "                    1. Configure firewall rules to allow connections\n" ++
  "                    2. Create databases on this server"

/-- Tool `create_sql_server`: checks name availability first, short-circuits
when unavailable, otherwise issues the (long-running) create and waits. -/
def create_sql_server (ctx : AzureContext)
    (resource_group server_name location admin_login admin_password version : String) :
    String × List ApiEvent :=
  match ctx.sql_client with
  | none => ("Error: Azure SQL client not initialized. Please check your credentials.", [])
  | some api =>
    match api.servers_check_name_availability server_name with
    | .error e =>
        ("Failed to create SQL server: " ++ e.toMessage,
         [⟨.checkNameAvailability server_name, some e⟩])
    | .ok availability =>
      if ¬ availability.available then
        ("Server name '" ++ server_name ++ "' is not available: " ++ availability.message,
         [⟨.checkNameAvailability server_name, none⟩])
      else
        let server_params : ServerParams := ⟨location, version, admin_login, admin_password⟩
        match api.servers_begin_create_or_update resource_group server_name server_params with
        | .error e =>
            ("Failed to create SQL server: " ++ e.toMessage,
             [⟨.checkNameAvailability server_name, none⟩,
              ⟨.serversBeginCreateOrUpdate resource_group server_name server_params, some e⟩])
        | .ok server =>
            (createServerSuccessText server,
             [⟨.checkNameAvailability server_name, none⟩,
              ⟨.serversBeginCreateOrUpdate resource_group server_name server_params, none⟩])

/-- Line block for one database in the `list_databases` listing; `or 'N/A'`
fallbacks follow Python truthiness. -/
def formatDatabase (db : Database) : List String :=
  ["Name: " ++ db.name,
   "Status: " ++ db.status,
   "Edition: " ++ (match db.sku with | some sku => sku.tier | none => "N/A"),
   "Service Objective: " ++
     (match db.sku with
      | some sku => sku.name
      | none =>
        match db.current_service_objective_name with
        | some n => if n = "" then "N/A" else n
        | none => "N/A"),
   "Max Size: " ++
     (match db.max_size_bytes with
      | some n => if n = 0 then "N/A" else toString n
      | none => "N/A"),
   "Creation Date: " ++
     (match db.creation_date with
      | some d => if d = "" then "N/A" else d
      | none => "N/A"),
   String.mk (List.replicate 30 '-')]

/-- Tool `list_databases`. -/
def list_databases (ctx : AzureContext) (resource_group server_name : String) :
    String × List ApiEvent :=
  match ctx.sql_client with
  | none => ("Error: Azure SQL client not initialized. Please check your credentials.", [])
  | some api =>
    match api.databases_list_by_server resource_group server_name with
    | .error e =>
        ("Failed to list databases: " ++ e.toMessage,
         [⟨.databasesListByServer resource_group server_name, some e⟩])
    | .ok databases =>
        if databases.isEmpty then
          ("No databases found on server '" ++ server_name ++ "'.",
           [⟨.databasesListByServer resource_group server_name, none⟩])
        else
          (String.intercalate "\n"
             (["DATABASES ON " ++ server_name, String.mk (List.replicate 50 '=')] ++
              (databases.map formatDatabase).flatten),
           [⟨.databasesListByServer resource_group server_name, none⟩])

/-- Success text of `create_database`. -/
def createDatabaseSuccessText (server_name database_name : String) (database : Database) :
    String :=
  "Database created successfully!\n" ++
  "                Name: " ++ database.name ++ "\n" ++
  "                Location: " ++ database.location ++ "\n" ++
  "                Edition: " ++
    (match database.sku with | some sku => sku.tier | none => "N/A") ++ "\n" ++
  "                Service Objective: " ++
    (match database.sku with | some sku => sku.name | none => "N/A") ++ "\n" ++
  "                Status: " ++ database.status ++ "\n" ++
  "                Creation Date: " ++
    (match database.creation_date with | some d => d | none => "None") ++ "\n\n" ++
  "                Connection string format:\n" ++
  "                Server=" ++ server_name ++ ".database.windows.net;Database=" ++
  database_name ++ ";"

/-- Message `create_database` returns when the server is absent
(`except ResourceNotFoundError`). -/
def serverNotFoundText (server_name resource_group : String) : String :=
  "SQL Server '" ++ server_name ++ "' not found in resource group '" ++ resource_group ++ "'."

/-- Tool `create_database`: looks the server up first and creates the
database in that server's location; `ResourceNotFoundError` is caught
before the generic handler. -/
def create_database (ctx : AzureContext)
    (resource_group server_name database_name edition service_objective : String) :
    String × List ApiEvent :=
  match ctx.sql_client with
  | none => ("Error: Azure SQL client not initialized. Please check your credentials.", [])
  | some api =>
    match api.servers_get resource_group server_name with
    | .error e =>
      (match e with
       | .resourceNotFound _ => serverNotFoundText server_name resource_group
       | .other m => "Failed to create database: " ++ m,
       [⟨.serversGet resource_group server_name, some e⟩])
    | .ok server_details =>
      let server_location := server_details.location
      let db_params : DbParams := ⟨server_location, service_objective, edition⟩
      match api.databases_begin_create_or_update resource_group server_name database_name
          db_params with
      | .error e =>
          (match e with
           | .resourceNotFound _ => serverNotFoundText server_name resource_group
           | .other m => "Failed to create database: " ++ m,
           [⟨.serversGet resource_group server_name, none⟩,
            ⟨.databasesBeginCreateOrUpdate resource_group server_name database_name db_params,
             some e⟩])
      | .ok database =>
          (createDatabaseSuccessText server_name database_name database,
           [⟨.serversGet resource_group server_name, none⟩,
            ⟨.databasesBeginCreateOrUpdate resource_group server_name database_name db_params,
             none⟩])

/-- Resource `azure://subscription` (`if not azure_ctx.subscription_id` is
Python truthiness). -/
def get_subscription_info (ctx : AzureContext) : String :=
  match ctx.subscription_id with
  | none => "No Azure subscription configured"
  | some sub =>
      if sub = "" then "No Azure subscription configured"
      else "Azure Subscription ID: " ++ sub

/-- Resource `azure://servers`: delegates to `list_sql_servers()` with the
filter left at its default. -/
def get_all_servers (ctx : AzureContext) : String × List ApiEvent :=
  list_sql_servers ctx none

/-- Python `str.lower()` as a character-wise map (the probed inputs are
ASCII, where `Char.toLower` and Python agree). -/
def pyLower (s : String) : String := String.mk (s.data.map Char.toLower)

/-- Fixed `suggestions` dictionary of `database_creation_prompt`, as a
lookup (`suggestions.get(key, ...)` semantics). -/
def database_suggestions (key : String × String) : Option (String × String) :=
  if key = ("low", "small") then some ("Basic", "Basic")
  else if key = ("low", "medium") then some ("Standard", "S1")
  else if key = ("medium", "medium") then some ("Standard", "S2")
  else if key = ("high", "large") then some ("Premium", "P1")
  else none

/-- Recommendation of `database_creation_prompt`: dictionary lookup on the
lower-cased pair with default `("Standard", "S1")`. -/
def database_creation_suggestion (expected_load data_size : String) : String × String :=
  (database_suggestions (pyLower expected_load, pyLower data_size)).getD ("Standard", "S1")

/-- Prompt `database_creation_prompt`. -/
def database_creation_prompt (purpose expected_load data_size : String) : String :=
  let p := database_creation_suggestion expected_load data_size
  "\n            I need to create an Azure SQL database for: " ++ purpose ++ "\n\n" ++
  "            Based on your requirements:\n" ++
  "            - Expected load: " ++ expected_load ++ "\n" ++
  "            - Data size: " ++ data_size ++ "\n\n" ++
  "            Recommended configuration:\n" ++
  "            - Edition: " ++ p.1 ++ "\n" ++
  "            - Service Objective: " ++ p.2 ++ "\n\n" ++
  "            Steps to create:\n" ++
  "            1. Ensure you have a resource group\n" ++
  "            2. Create or use an existing SQL server\n" ++
  "            3. Create the database with recommended settings\n" ++
  "            4. Configure firewall rules for access\n" ++
  "            5. Set up connection strings\n" ++
  "            "

/-- One named invocation delivered by the transport: the six tools, the
two resources and the prompt, with their declared arguments (optional /
defaulted ones as the transport passes them). -/
inductive Invocation where
  | list_resource_groups
  | create_resource_group (name location : String) (tags : Option String)
  | list_sql_servers (resource_group : Option String)
  | create_sql_server
      (resource_group server_name location admin_login admin_password version : String)
  | list_databases (resource_group server_name : String)
  | create_database
      (resource_group server_name database_name edition service_objective : String)
  | resource_subscription
  | resource_servers
  | prompt_database_creation (purpose expected_load data_size : String)

/-- Dispatcher: runs one invocation against the shared context and returns
the text result, the API trace, and the context as every handler leaves it.
No handler body assigns to any `AzureContext` field, so the context passes
through unchanged. -/
def dispatch (parseJson : String → Option TagDict) (inv : Invocation) (ctx : AzureContext) :
    String × List ApiEvent × AzureContext :=
  match inv with
  | .list_resource_groups =>
      let r := list_resource_groups ctx
      (r.1, r.2, ctx)
  | .create_resource_group name location tags =>
      let r := create_resource_group parseJson ctx name location tags
      (r.1, r.2, ctx)
  | .list_sql_servers resource_group =>
      let r := list_sql_servers ctx resource_group
      (r.1, r.2, ctx)
  | .create_sql_server rg sv loc login pwd ver =>
      let r := create_sql_server ctx rg sv loc login pwd ver
      (r.1, r.2, ctx)
  | .list_databases rg sv =>
      let r := list_databases ctx rg sv
      (r.1, r.2, ctx)
  | .create_database rg sv db ed so =>
      let r := create_database ctx rg sv db ed so
      (r.1, r.2, ctx)
  | .resource_subscription => (get_subscription_info ctx, [], ctx)
  | .resource_servers =>
      let r := get_all_servers ctx
      (r.1, r.2, ctx)
  | .prompt_database_creation purpose load size =>
      (database_creation_prompt purpose load size, [], ctx)

/-- Boolean test that `l2` starts with `l`. -/
def listBegins : List Char → List Char → Bool
  | [], _ => true
  | _ :: _, [] => false
  | a :: as, b :: bs => a == b && listBegins as bs

/-- Boolean test that the string `s` begins with the string `p` (used to
state the spec's "begins with \"Failed to \"" property). -/
def strBegins (p s : String) : Bool := listBegins p.data s.data

/-- Model of a `json.loads` front-end on which the probed tag strings are
syntactically invalid (raise `JSONDecodeError`). -/
def invalidJson : String → Option TagDict := fun _ => none

/-- Sample server object returned by the stub management API. -/
def sampleServer : Server :=
  ⟨"srv1", "eastus",
   "/subscriptions/sub-123/resourceGroups/rg1/providers/Microsoft.Sql/servers/srv1",
   "Ready", "12.0", "sqladmin", "srv1.database.windows.net"⟩

/-- Sample database object returned by the stub management API. -/
def sampleDatabase : Database :=
  ⟨"db1", "eastus", "Online", some ⟨"Basic", "Basic"⟩, none, some 2147483648,
   some "2024-01-01T00:00:00"⟩

/-- Stub sql-management client on which every call succeeds. -/
def okSqlApi : SqlApi :=
  ⟨.ok [sampleServer],
   fun _ => .ok [sampleServer],
   fun _ => .ok ⟨true, ""⟩,
   fun _ _ _ => .ok sampleServer,
   fun _ _ => .ok sampleServer,
   fun _ _ => .ok [sampleDatabase],
   fun _ _ _ _ => .ok sampleDatabase⟩

/-- Stub resource-management client on which every call succeeds. -/
def okResourceApi : ResourceApi :=
  ⟨.ok [⟨"rg1", "eastus", none⟩],
   fun name p => .ok ⟨name, p.location, none⟩⟩

/-- Stub sql-management client whose name-availability check reports the
name as taken. -/
def unavailableSqlApi : SqlApi :=
  { okSqlApi with servers_check_name_availability := fun _ => .ok ⟨false, "Name already exists"⟩ }

/-- Stub sql-management client on which every call raises a generic fault. -/
def failSqlApi : SqlApi :=
  ⟨.error (.other "boom"),
   fun _ => .error (.other "boom"),
   fun _ => .error (.other "boom"),
   fun _ _ _ => .error (.other "boom"),
   fun _ _ => .error (.other "boom"),
   fun _ _ => .error (.other "boom"),
   fun _ _ _ _ => .error (.other "boom")⟩

/-- Stub resource-management client on which every call raises a generic
fault. -/
def failResourceApi : ResourceApi :=
  ⟨.error (.other "boom"), fun _ _ => .error (.other "boom")⟩

/-- Stub sql-management client on which `servers.get` raises
`ResourceNotFoundError`. -/
def notFoundSqlApi : SqlApi :=
  { okSqlApi with servers_get := fun _ _ => .error (.resourceNotFound "resource not found") }

/-- Fully initialized context with succeeding stub clients. -/
def readyCtx : AzureContext :=
  ⟨some okSqlApi, some okResourceApi, some "sub-123", some Credential.defaultAzureCredential⟩

/-- Fully initialized context whose sql client reports the probed server
name as unavailable. -/
def unavailableCtx : AzureContext :=
  { readyCtx with sql_client := some unavailableSqlApi }

/-- Fully initialized context whose clients raise a generic fault on every
call. -/
def failCtx : AzureContext :=
  ⟨some failSqlApi, some failResourceApi, some "sub-123", some Credential.defaultAzureCredential⟩

/-- Fully initialized context whose sql client raises
`ResourceNotFoundError` on `servers.get`. -/
def notFoundCtx : AzureContext :=
  { readyCtx with sql_client := some notFoundSqlApi }

/-- Environment with a subscription id configured. -/
def envWithSub : Env := ⟨some "sub-123", none, none, none⟩

/-- Environment without a subscription id. -/
def envNoSub : Env := ⟨none, some "tenant", some "client", some "secret"⟩

/-- Recogniser for the `servers.begin_create_or_update` call. -/
def ApiCall.isServerCreate : ApiCall → Bool
  | .serversBeginCreateOrUpdate _ _ _ => true
  | _ => false

/-- Extending the scanned list on the right preserves a positive begins-with
test. -/
theorem listBegins_extend : ∀ (l l2 r : List Char),
    listBegins l l2 = true → listBegins l (l2 ++ r) = true
  | [], _, _, _ => rfl
  | _ :: _, [], _, h => by simp [listBegins] at h
  | a :: as, b :: bs, r, h => by
    simp only [listBegins, Bool.and_eq_true] at h ⊢
    exact ⟨h.1, listBegins_extend as bs r h.2⟩

/-- Extending the scanned list on the right preserves a negative begins-with
test, provided the pattern did not simply run past the scanned list's end. -/
theorem listBegins_false_extend : ∀ (l l2 r : List Char),
    l.length ≤ l2.length → listBegins l l2 = false → listBegins l (l2 ++ r) = false
  | [], _, _, _, h => by simp [listBegins] at h
  | _ :: _, [], _, hl, _ => by simp at hl
  | a :: as, b :: bs, r, hl, h => by
    simp only [listBegins, Bool.and_eq_false_iff] at h ⊢
    rcases h with h | h
    · exact Or.inl h
    · exact Or.inr (listBegins_false_extend as bs r (by simpa using hl) h)

/-- Any text of the form `a ++ m` begins with `"Failed to "` as soon as the
literal head `a` does. -/
theorem strBegins_failed (a m : String) (h : listBegins "Failed to ".data a.data = true) :
    strBegins "Failed to " (a ++ m) = true := by
  simp only [strBegins, String.data_append]
  exact listBegins_extend _ _ _ h

/-- The dedicated `create_database` not-found message does not begin with
`"Failed to "`, whatever the server and group names are. -/
theorem serverNotFoundText_not_failed (sv rg : String) :
    strBegins "Failed to " (serverNotFoundText sv rg) = false := by
  simp only [serverNotFoundText, strBegins, String.data_append, List.append_assoc]
  exact listBegins_false_extend _ _ _ (by decide) (by decide)

/-- Claim C6: `database_creation_prompt`'s recommendation (computed by
`database_creation_suggestion`, which the prompt template interpolates)
is exactly the fixed four-entry table matched case-insensitively, with
`("Standard", "S1")` for every pair outside the table. -/
theorem C6_suggestion_table :
    (∀ l s, pyLower l = "low" → pyLower s = "small" →
       database_creation_suggestion l s = ("Basic", "Basic")) ∧
    (∀ l s, pyLower l = "low" → pyLower s = "medium" →
       database_creation_suggestion l s = ("Standard", "S1")) ∧
    (∀ l s, pyLower l = "medium" → pyLower s = "medium" →
       database_creation_suggestion l s = ("Standard", "S2")) ∧
    (∀ l s, pyLower l = "high" → pyLower s = "large" →
       database_creation_suggestion l s = ("Premium", "P1")) ∧
    (∀ l s, (pyLower l, pyLower s) ≠ ("low", "small") →
       (pyLower l, pyLower s) ≠ ("low", "medium") →
       (pyLower l, pyLower s) ≠ ("medium", "medium") →
       (pyLower l, pyLower s) ≠ ("high", "large") →
       database_creation_suggestion l s = ("Standard", "S1")) := by
  refine ⟨?_, ?_, ?_, ?_, ?_⟩
  · intro l s h1 h2
    simp [database_creation_suggestion, database_suggestions, h1, h2]
  · intro l s h1 h2
    simp [database_creation_suggestion, database_suggestions, h1, h2]
  · intro l s h1 h2
    simp [database_creation_suggestion, database_suggestions, h1, h2]
  · intro l s h1 h2
    simp [database_creation_suggestion, database_suggestions, h1, h2]
  · intro l s h1 h2 h3 h4
    simp [database_creation_suggestion, database_suggestions, h1, h2, h3, h4]

/-- Witness for C6 at concrete inputs, upper-case on the table side and an
off-table pair on the default side. -/
theorem C6_witness :
    ((pyLower "LOW" = "low" ∧ pyLower "Small" = "small") ∧
      database_creation_suggestion "LOW" "Small" = ("Basic", "Basic")) ∧
    database_creation_suggestion "high" "tiny" = ("Standard", "S1") :=
  ⟨⟨⟨by decide, by decide⟩, C6_suggestion_table.1 "LOW" "Small" (by decide) (by decide)⟩,
    C6_suggestion_table.2.2.2.2 "high" "tiny" (by decide) (by decide) (by decide) (by decide)⟩

/-- Claim C10: an empty-string `resource_group` filter is Python-falsy, so
`list_sql_servers` behaves exactly as with the filter absent and issues the
subscription-wide `servers.list` call. -/
theorem C10_empty_filter_subscription_wide :
    (∀ ctx, list_sql_servers ctx (some "") = list_sql_servers ctx none) ∧
    (∀ ctx api, ctx.sql_client = some api →
       ∃ f, (list_sql_servers ctx (some "")).2 = [⟨ApiCall.serversList, f⟩]) := by
  constructor
  · intro ctx
    obtain ⟨sq, rc, sub, cred⟩ := ctx
    cases sq <;> rfl
  · intro ctx api h
    obtain ⟨sq, rc, sub, cred⟩ := ctx
    simp only at h
    subst h
    rcases hl : api.servers_list with e | svs <;>
      simp [list_sql_servers, hl]

/-- Witness for C10 on the fully initialized stub context. -/
theorem C10_witness :
    readyCtx.sql_client = some okSqlApi ∧
    ∃ f, (list_sql_servers readyCtx (some "")).2 = [⟨ApiCall.serversList, f⟩] :=
  ⟨rfl, C10_empty_filter_subscription_wide.2 readyCtx okSqlApi rfl⟩

/-- Counterexample for C9: the empty string is not syntactically valid JSON
(`json.loads("")` raises), yet `if tags:` treats it as absent, so
`create_resource_group` skips the JSON-format error and issues the create
call. -/
theorem C9_counterexample :
    invalidJson "" = none ∧
    (create_resource_group invalidJson readyCtx "rg1" "eastus" (some "")).1 ≠
      "Error: Tags must be valid JSON format" ∧
    (create_resource_group invalidJson readyCtx "rg1" "eastus" (some "")).2 ≠ [] := by
  refine ⟨rfl, by decide, by decide⟩

/-- Claim C9 as amended: for every NONEMPTY syntactically invalid tags
string, `create_resource_group` (with an initialized resource client)
returns the JSON-format error text and performs no external API call; the
empty string, though itself invalid JSON, is Python-falsy and is treated as
absent tags instead. -/
theorem C9_invalid_tags_rejected (parseJson : String → Option TagDict)
    (ctx : AzureContext) (api : ResourceApi) (name location t : String)
    (hc : ctx.resource_client = some api) (hne : t ≠ "") (hp : parseJson t = none) :
    create_resource_group parseJson ctx name location (some t) =
      ("Error: Tags must be valid JSON format", []) := by
  obtain ⟨sq, rc, sub, cred⟩ := ctx
  simp only at hc
  subst hc
  simp [create_resource_group, hne, hp]

/-- Witness for C9 on a concrete malformed tags string. -/
theorem C9_witness :
    (readyCtx.resource_client = some okResourceApi ∧ "not json" ≠ "" ∧
      invalidJson "not json" = none) ∧
    create_resource_group invalidJson readyCtx "rg1" "eastus" (some "not json") =
      ("Error: Tags must be valid JSON format", []) :=
  ⟨⟨rfl, by decide, rfl⟩,
    C9_invalid_tags_rejected invalidJson readyCtx okResourceApi "rg1" "eastus" "not json"
      rfl (by decide) rfl⟩

/-- Claim C5: `create_sql_server` always issues the name-availability check
before any create call (any create call in the trace implies the trace
opens with the check), and when the name is reported unavailable it returns
the availability message and issues no create call. -/
theorem C5_availability_check_first (ctx : AzureContext)
    (rg sv loc login pwd ver : String) :
    ((∃ ev ∈ (create_sql_server ctx rg sv loc login pwd ver).2,
        ev.call.isServerCreate = true) →
      ((create_sql_server ctx rg sv loc login pwd ver).2.map ApiEvent.call).head? =
        some (ApiCall.checkNameAvailability sv)) ∧
    (∀ api av, ctx.sql_client = some api →
      api.servers_check_name_availability sv = Except.ok av → av.available = false →
      (create_sql_server ctx rg sv loc login pwd ver).1 =
        "Server name '" ++ sv ++ "' is not available: " ++ av.message ∧
      ∀ ev ∈ (create_sql_server ctx rg sv loc login pwd ver).2,
        ev.call.isServerCreate = false) := by
  obtain ⟨sq, rc, sub, cred⟩ := ctx
  constructor
  · intro h
    rcases sq with _ | api
    · simp [create_sql_server] at h
    · rcases hav : api.servers_check_name_availability sv with e | av
      · simp [create_sql_server, hav]
      · by_cases hb : av.available
        · rcases hcr : api.servers_begin_create_or_update rg sv ⟨loc, ver, login, pwd⟩
            with e | srv <;> simp [create_sql_server, hav, hb, hcr]
        · simp [create_sql_server, hav, hb] at h
          simp [ApiCall.isServerCreate] at h
  · intro api av hc hav hb
    simp only at hc
    subst hc
    simp [create_sql_server, hav, hb, ApiCall.isServerCreate]

/-- Witness for C5 on the stub context whose availability check reports the
name as taken. -/
theorem C5_witness :
    (unavailableCtx.sql_client = some unavailableSqlApi ∧
      unavailableSqlApi.servers_check_name_availability "srv1" =
        Except.ok ⟨false, "Name already exists"⟩ ∧
      (Availability.mk false "Name already exists").available = false) ∧
    ((create_sql_server unavailableCtx "rg1" "srv1" "eastus" "sqladmin" "pw" "12.0").1 =
        "Server name '" ++ "srv1" ++ "' is not available: " ++ "Name already exists" ∧
      ∀ ev ∈ (create_sql_server unavailableCtx "rg1" "srv1" "eastus" "sqladmin" "pw" "12.0").2,
        ev.call.isServerCreate = false) :=
  ⟨⟨rfl, rfl, rfl⟩,
    (C5_availability_check_first unavailableCtx "rg1" "srv1" "eastus" "sqladmin" "pw" "12.0").2
      unavailableSqlApi ⟨false, "Name already exists"⟩ rfl rfl rfl⟩

/-- Claim C7: `create_database` opens with the `servers.get` lookup, and
every database create call it issues carries exactly the looked-up server's
location (together with the caller's service objective and edition); the
caller supplies no location (the `Invocation.create_database` arguments
have none). -/
theorem C7_location_from_server (ctx : AzureContext) (api : SqlApi)
    (rg sv db ed so : String) (hc : ctx.sql_client = some api) :
    ((create_database ctx rg sv db ed so).2.map ApiEvent.call).head? =
      some (ApiCall.serversGet rg sv) ∧
    (∀ ev ∈ (create_database ctx rg sv db ed so).2, ∀ rg2 sv2 db2 p,
      ev.call = ApiCall.databasesBeginCreateOrUpdate rg2 sv2 db2 p →
      ∃ srv, api.servers_get rg sv = Except.ok srv ∧
        rg2 = rg ∧ sv2 = sv ∧ db2 = db ∧ p = ⟨srv.location, so, ed⟩) := by
  obtain ⟨sq, rc, sub, cred⟩ := ctx
  simp only at hc
  subst hc
  rcases hg : api.servers_get rg sv with e | srv
  · simp [create_database, hg]
  · rcases hcr : api.databases_begin_create_or_update rg sv db ⟨srv.location, so, ed⟩
      with e | d <;>
      simp [create_database, hg, hcr] <;>
      exact fun rg2 sv2 db2 p h1 h2 h3 h4 => ⟨h1.symm, h2.symm, h3.symm, h4.symm⟩

/-- Witness for C7 on the fully initialized stub context. -/
theorem C7_witness :
    readyCtx.sql_client = some okSqlApi ∧
    ((create_database readyCtx "rg1" "srv1" "db1" "Standard" "S1").2.map ApiEvent.call).head? =
      some (ApiCall.serversGet "rg1" "srv1") :=
  ⟨rfl, (C7_location_from_server readyCtx okSqlApi "rg1" "srv1" "db1" "Standard" "S1" rfl).1⟩

/-- Claim C8: a `ResourceNotFoundError` during `create_database` yields the
dedicated message naming the server and resource group — a text that does
not begin with `"Failed to "` — while any other fault yields the generic
`"Failed to create database: <message>"` text. -/
theorem C8_not_found_distinguished (ctx : AzureContext) (api : SqlApi)
    (rg sv db ed so m : String) (hc : ctx.sql_client = some api) :
    (api.servers_get rg sv = Except.error (AzureError.resourceNotFound m) →
      (create_database ctx rg sv db ed so).1 = serverNotFoundText sv rg ∧
      strBegins "Failed to " (create_database ctx rg sv db ed so).1 = false) ∧
    (api.servers_get rg sv = Except.error (AzureError.other m) →
      (create_database ctx rg sv db ed so).1 = "Failed to create database: " ++ m ∧
      strBegins "Failed to " (create_database ctx rg sv db ed so).1 = true) ∧
    (∀ srv, api.servers_get rg sv = Except.ok srv →
      api.databases_begin_create_or_update rg sv db ⟨srv.location, so, ed⟩ =
        Except.error (AzureError.other m) →
      (create_database ctx rg sv db ed so).1 = "Failed to create database: " ++ m ∧
      strBegins "Failed to " (create_database ctx rg sv db ed so).1 = true) := by
  obtain ⟨sq, rc, sub, cred⟩ := ctx
  simp only at hc
  subst hc
  refine ⟨?_, ?_, ?_⟩
  · intro hg
    simp only [create_database, hg]
    exact ⟨trivial, serverNotFoundText_not_failed sv rg⟩
  · intro hg
    simp only [create_database, hg]
    exact ⟨trivial, strBegins_failed _ _ (by decide)⟩
  · intro srv hg hcr
    simp only [create_database, hg, hcr]
    exact ⟨trivial, strBegins_failed _ _ (by decide)⟩

/-- Witness for C8 on the stub context whose `servers.get` raises
`ResourceNotFoundError`. -/
theorem C8_witness :
    (notFoundCtx.sql_client = some notFoundSqlApi ∧
      notFoundSqlApi.servers_get "rg1" "srv1" =
        Except.error (AzureError.resourceNotFound "resource not found")) ∧
    ((create_database notFoundCtx "rg1" "srv1" "db1" "Basic" "Basic").1 =
        serverNotFoundText "srv1" "rg1" ∧
      strBegins "Failed to "
        (create_database notFoundCtx "rg1" "srv1" "db1" "Basic" "Basic").1 = false) :=
  ⟨⟨rfl, rfl⟩,
    (C8_not_found_distinguished notFoundCtx notFoundSqlApi "rg1" "srv1" "db1" "Basic" "Basic"
      "resource not found" rfl).1 rfl⟩

/-- Counterexample for C2: when the `ResourceManagementClient` constructor
is the one that raises, the earlier `sql_client` assignment has already
happened, so the yielded context has the sql-management handle present —
not "both client handles absent" as claimed. -/
theorem C2_counterexample :
    (azure_lifespan envWithSub ⟨false, false, true⟩ okSqlApi okResourceApi).subscription_id =
      some "sub-123" ∧
    (azure_lifespan envWithSub ⟨false, false, true⟩ okSqlApi okResourceApi).sql_client.isSome =
      true ∧
    (azure_lifespan envWithSub ⟨false, false, true⟩ okSqlApi okResourceApi).resource_client =
      none :=
  ⟨rfl, rfl, rfl⟩

/-- Claim C2 as amended: with a subscription id present, a fault during
credential/client construction never fails startup — a context is still
yielded — and exactly the assignments preceding the faulting step survive:
the resource-management handle is always absent, `subscription_id` is set
unless credential construction itself faulted, and the sql-management
handle is present exactly when only the resource-management construction
faulted.  (The claim's "subscriptionId set and both handles absent"
describes only the fault at the sql-management constructor.) -/
theorem C2_degraded_startup (env : Env) (f : CtorFaults) (sqlApi : SqlApi)
    (resApi : ResourceApi) (sub : String) (hs : env.subscription_id = some sub)
    (hne : sub ≠ "")
    (hf : f.credential_fails = true ∨ f.sql_client_fails = true ∨
      f.resource_client_fails = true) :
    (azure_lifespan env f sqlApi resApi).resource_client = none ∧
    (azure_lifespan env f sqlApi resApi).subscription_id =
      (if f.credential_fails then none else some sub) ∧
    (azure_lifespan env f sqlApi resApi).sql_client =
      (if f.credential_fails ∨ f.sql_client_fails then none else some sqlApi) := by
  obtain ⟨es, et, ec, esec⟩ := env
  simp only at hs
  subst hs
  obtain ⟨fc, fs, fr⟩ := f
  cases fc <;> cases fs <;> cases fr <;>
    simp_all [azure_lifespan, truthy]

/-- Witness for C2 at a fault in the sql-management client constructor. -/
theorem C2_witness :
    (envWithSub.subscription_id = some "sub-123" ∧ "sub-123" ≠ "" ∧
      ((⟨false, true, false⟩ : CtorFaults).credential_fails = true ∨
        (⟨false, true, false⟩ : CtorFaults).sql_client_fails = true ∨
        (⟨false, true, false⟩ : CtorFaults).resource_client_fails = true)) ∧
    ((azure_lifespan envWithSub ⟨false, true, false⟩ okSqlApi okResourceApi).resource_client =
        none ∧
      (azure_lifespan envWithSub ⟨false, true, false⟩ okSqlApi okResourceApi).subscription_id =
        (if (⟨false, true, false⟩ : CtorFaults).credential_fails then none
          else some "sub-123") ∧
      (azure_lifespan envWithSub ⟨false, true, false⟩ okSqlApi okResourceApi).sql_client =
        (if (⟨false, true, false⟩ : CtorFaults).credential_fails ∨
            (⟨false, true, false⟩ : CtorFaults).sql_client_fails then none
          else some okSqlApi)) :=
  ⟨⟨rfl, by decide, Or.inr (Or.inl rfl)⟩,
    C2_degraded_startup envWithSub ⟨false, true, false⟩ okSqlApi okResourceApi "sub-123"
      rfl (by decide) (Or.inr (Or.inl rfl))⟩

/-- Counterexample for C3: with the subscription id absent every tool does
return a "not initialized" text, but the text is NOT one single uniform
message — the two resource-group tools say "Azure client" where the four
SQL tools say "Azure SQL client". -/
theorem C3_counterexample :
    envNoSub.subscription_id = none ∧
    (list_resource_groups
        (azure_lifespan envNoSub ⟨false, false, false⟩ okSqlApi okResourceApi)).1 ≠
      (list_sql_servers
        (azure_lifespan envNoSub ⟨false, false, false⟩ okSqlApi okResourceApi) none).1 :=
  ⟨rfl, by decide⟩

/-- Claim C3 as amended: if the subscription id is absent, every tool
invocation returns a fixed "not initialized" text without issuing any
external API call; the text is uniform within each client family (one
message for the two resource-group tools, a different one for the four SQL
tools), not across all six tools. -/
theorem C3_not_initialized_no_calls (env : Env) (f : CtorFaults) (sqlApi : SqlApi)
    (resApi : ResourceApi) (h : env.subscription_id = none) :
    list_resource_groups (azure_lifespan env f sqlApi resApi) =
      ("Error: Azure client not initialized. Please check your credentials.", []) ∧
    (∀ parseJson name location tags,
      create_resource_group parseJson (azure_lifespan env f sqlApi resApi) name location tags =
        ("Error: Azure client not initialized. Please check your credentials.", [])) ∧
    (∀ rg, list_sql_servers (azure_lifespan env f sqlApi resApi) rg =
      ("Error: Azure SQL client not initialized. Please check your credentials.", [])) ∧
    (∀ rg sv loc login pwd ver,
      create_sql_server (azure_lifespan env f sqlApi resApi) rg sv loc login pwd ver =
        ("Error: Azure SQL client not initialized. Please check your credentials.", [])) ∧
    (∀ rg sv, list_databases (azure_lifespan env f sqlApi resApi) rg sv =
      ("Error: Azure SQL client not initialized. Please check your credentials.", [])) ∧
    (∀ rg sv db ed so,
      create_database (azure_lifespan env f sqlApi resApi) rg sv db ed so =
        ("Error: Azure SQL client not initialized. Please check your credentials.", [])) := by
  obtain ⟨es, et, ec, esec⟩ := env
  simp only at h
  subst h
  exact ⟨rfl, fun _ _ _ _ => rfl, fun _ => rfl, fun _ _ _ _ _ _ => rfl, fun _ _ => rfl,
    fun _ _ _ _ _ => rfl⟩

/-- Witness for C3: one resource-group tool and one SQL tool, run against
the context the lifespan yields for an environment without a subscription
id. -/
theorem C3_witness :
    envNoSub.subscription_id = none ∧
    list_resource_groups (azure_lifespan envNoSub ⟨false, false, false⟩ okSqlApi okResourceApi) =
      ("Error: Azure client not initialized. Please check your credentials.", []) ∧
    create_database (azure_lifespan envNoSub ⟨false, false, false⟩ okSqlApi okResourceApi)
        "rg1" "srv1" "db1" "Basic" "Basic" =
      ("Error: Azure SQL client not initialized. Please check your credentials.", []) :=
  ⟨rfl,
    (C3_not_initialized_no_calls envNoSub ⟨false, false, false⟩ okSqlApi okResourceApi rfl).1,
    (C3_not_initialized_no_calls envNoSub ⟨false, false, false⟩ okSqlApi
      okResourceApi rfl).2.2.2.2.2 "rg1" "srv1" "db1" "Basic" "Basic"⟩

/-- Claim C4: no tool, resource, or prompt invocation mutates the shared
context — the dispatcher hands every handler the context and gets it back
unchanged, so every invocation observes an identical `AzureContext`.  (In
the source no handler assigns to any field of the lifespan context; the
embedding threads the context through `dispatch` accordingly.) -/
theorem C4_context_never_mutated (parseJson : String → Option TagDict)
    (inv : Invocation) (ctx : AzureContext) :
    (dispatch parseJson inv ctx).2.2 = ctx := by
  cases inv <;> rfl

/-- Faulting `resource_groups.list` calls surface as `"Failed to "` text in
`list_resource_groups`. -/
theorem list_resource_groups_fault_text (ctx : AzureContext)
    (h : ∃ ev ∈ (list_resource_groups ctx).2, ev.fault.isSome = true) :
    strBegins "Failed to " (list_resource_groups ctx).1 = true := by
  obtain ⟨sq, rc, sub, cred⟩ := ctx
  rcases rc with _ | api
  · simp [list_resource_groups] at h
  · rcases hl : api.resource_groups_list with e | rgs
    · simp only [list_resource_groups, hl]
      exact strBegins_failed _ _ (by decide)
    · by_cases he : rgs.isEmpty = true <;> simp [list_resource_groups, hl, he] at h

/-- Faulting create calls surface as `"Failed to "` text in
`create_resource_group`. -/
theorem create_resource_group_fault_text (parseJson : String → Option TagDict)
    (ctx : AzureContext) (name location : String) (tags : Option String)
    (h : ∃ ev ∈ (create_resource_group parseJson ctx name location tags).2,
      ev.fault.isSome = true) :
    strBegins "Failed to " (create_resource_group parseJson ctx name location tags).1 =
      true := by
  obtain ⟨sq, rc, sub, cred⟩ := ctx
  rcases rc with _ | api
  · simp [create_resource_group] at h
  · rcases tags with _ | t
    · rcases hc2 : api.resource_groups_create_or_update name ⟨location, []⟩ with e | r
      · simp only [create_resource_group, hc2]
        exact strBegins_failed _ _ (by decide)
      · simp [create_resource_group, hc2] at h
    · by_cases ht : t = ""
      · subst ht
        rcases hc2 : api.resource_groups_create_or_update name ⟨location, []⟩ with e | r
        · simp [create_resource_group, hc2]
          exact strBegins_failed _ _ (by decide)
        · simp [create_resource_group, hc2] at h
      · rcases hp : parseJson t with _ | d
        · simp [create_resource_group, ht, hp] at h
        · rcases hc2 : api.resource_groups_create_or_update name ⟨location, d⟩ with e | r
          · simp [create_resource_group, ht, hp, hc2]
            exact strBegins_failed _ _ (by decide)
          · simp [create_resource_group, ht, hp, hc2] at h

/-- Faulting list calls surface as `"Failed to "` text in
`list_sql_servers`, on either listing path. -/
theorem list_sql_servers_fault_text (ctx : AzureContext) (resource_group : Option String)
    (h : ∃ ev ∈ (list_sql_servers ctx resource_group).2, ev.fault.isSome = true) :
    strBegins "Failed to " (list_sql_servers ctx resource_group).1 = true := by
  obtain ⟨sq, rc, sub, cred⟩ := ctx
  rcases sq with _ | api
  · simp [list_sql_servers] at h
  · rcases resource_group with _ | rg
    · rcases hl : api.servers_list with e | svs
      · simp only [list_sql_servers, hl]
        exact strBegins_failed _ _ (by decide)
      · simp [list_sql_servers, hl] at h
    · by_cases hrg : rg = ""
      · subst hrg
        rcases hl : api.servers_list with e | svs
        · simp [list_sql_servers, hl]
          exact strBegins_failed _ _ (by decide)
        · simp [list_sql_servers, hl] at h
      · rcases hl : api.servers_list_by_resource_group rg with e | svs
        · simp [list_sql_servers, hrg, hl]
          exact strBegins_failed _ _ (by decide)
        · simp [list_sql_servers, hrg, hl] at h

/-- Faulting availability or create calls surface as `"Failed to "` text in
`create_sql_server`. -/
theorem create_sql_server_fault_text (ctx : AzureContext)
    (rg sv loc login pwd ver : String)
    (h : ∃ ev ∈ (create_sql_server ctx rg sv loc login pwd ver).2,
      ev.fault.isSome = true) :
    strBegins "Failed to " (create_sql_server ctx rg sv loc login pwd ver).1 = true := by
  obtain ⟨sq, rc, sub, cred⟩ := ctx
  rcases sq with _ | api
  · simp [create_sql_server] at h
  · rcases hav : api.servers_check_name_availability sv with e | av
    · simp only [create_sql_server, hav]
      exact strBegins_failed _ _ (by decide)
    · by_cases hb : av.available = true
      · rcases hcr : api.servers_begin_create_or_update rg sv ⟨loc, ver, login, pwd⟩
          with e | srv
        · simp [create_sql_server, hav, hb, hcr]
          exact strBegins_failed _ _ (by decide)
        · simp [create_sql_server, hav, hb, hcr] at h
      · simp [create_sql_server, hav, hb] at h

/-- Faulting list calls surface as `"Failed to "` text in
`list_databases`. -/
theorem list_databases_fault_text (ctx : AzureContext) (rg sv : String)
    (h : ∃ ev ∈ (list_databases ctx rg sv).2, ev.fault.isSome = true) :
    strBegins "Failed to " (list_databases ctx rg sv).1 = true := by
  obtain ⟨sq, rc, sub, cred⟩ := ctx
  rcases sq with _ | api
  · simp [list_databases] at h
  · rcases hl : api.databases_list_by_server rg sv with e | dbs
    · simp only [list_databases, hl]
      exact strBegins_failed _ _ (by decide)
    · by_cases he : dbs.isEmpty = true <;> simp [list_databases, hl, he] at h

/-- Faults in `create_database` surface either as `"Failed to "` text or,
for `ResourceNotFoundError`, as the dedicated not-found message. -/
theorem create_database_fault_text (ctx : AzureContext) (rg sv db ed so : String)
    (h : ∃ ev ∈ (create_database ctx rg sv db ed so).2, ev.fault.isSome = true) :
    strBegins "Failed to " (create_database ctx rg sv db ed so).1 = true ∨
    (create_database ctx rg sv db ed so).1 = serverNotFoundText sv rg := by
  obtain ⟨sq, rc, sub, cred⟩ := ctx
  rcases sq with _ | api
  · simp [create_database] at h
  · rcases hg : api.servers_get rg sv with e | srv
    · rcases e with m | m
      · right
        simp [create_database, hg]
      · left
        simp only [create_database, hg]
        exact strBegins_failed _ _ (by decide)
    · rcases hcr : api.databases_begin_create_or_update rg sv db ⟨srv.location, so, ed⟩
        with e | d
      · rcases e with m | m
        · right
          simp [create_database, hg, hcr]
        · left
          simp only [create_database, hg, hcr]
          exact strBegins_failed _ _ (by decide)
      · simp [create_database, hg, hcr] at h

/-- Claim C1 as amended: a fault raised by any external API call inside any
handler never propagates (each handler totalises it into a text result),
and the text begins with `"Failed to "` — except that `create_database`
answers a `ResourceNotFoundError` with its dedicated
"SQL Server ... not found in resource group ..." message instead. -/
theorem C1_fault_converted_to_text (parseJson : String → Option TagDict)
    (inv : Invocation) (ctx : AzureContext)
    (h : ∃ ev ∈ (dispatch parseJson inv ctx).2.1, ev.fault.isSome = true) :
    strBegins "Failed to " (dispatch parseJson inv ctx).1 = true ∨
    ∃ rg sv db ed so, inv = Invocation.create_database rg sv db ed so ∧
      (dispatch parseJson inv ctx).1 = serverNotFoundText sv rg := by
  cases inv with
  | list_resource_groups => exact Or.inl (list_resource_groups_fault_text ctx h)
  | create_resource_group name location tags =>
      exact Or.inl (create_resource_group_fault_text parseJson ctx name location tags h)
  | list_sql_servers rg => exact Or.inl (list_sql_servers_fault_text ctx rg h)
  | create_sql_server rg sv loc login pwd ver =>
      exact Or.inl (create_sql_server_fault_text ctx rg sv loc login pwd ver h)
  | list_databases rg sv => exact Or.inl (list_databases_fault_text ctx rg sv h)
  | create_database rg sv db ed so =>
      rcases create_database_fault_text ctx rg sv db ed so h with hl | hr
      · exact Or.inl hl
      · exact Or.inr ⟨rg, sv, db, ed, so, rfl, hr⟩
  | resource_subscription => simp [dispatch] at h
  | resource_servers => exact Or.inl (list_sql_servers_fault_text ctx none h)
  | prompt_database_creation p l s => simp [dispatch] at h

/-- Counterexample for C1 as frozen: a `ResourceNotFoundError` raised by the
`servers.get` call inside `create_database` is a fault raised by an
external API call in a handler, yet the returned text does not begin with
`"Failed to "`. -/
theorem C1_counterexample :
    (∃ ev ∈ (create_database notFoundCtx "rg1" "srv1" "db1" "Basic" "Basic").2,
      ev.fault.isSome = true) ∧
    (create_database notFoundCtx "rg1" "srv1" "db1" "Basic" "Basic").1 =
      "SQL Server 'srv1' not found in resource group 'rg1'." ∧
    strBegins "Failed to "
      (create_database notFoundCtx "rg1" "srv1" "db1" "Basic" "Basic").1 = false := by
  refine ⟨by decide, by decide, by decide⟩

/-- Witness for C1 on `list_resource_groups` with an always-faulting
resource client. -/
theorem C1_witness :
    (∃ ev ∈ (dispatch invalidJson Invocation.list_resource_groups failCtx).2.1,
      ev.fault.isSome = true) ∧
    (strBegins "Failed to " (dispatch invalidJson Invocation.list_resource_groups failCtx).1 =
        true ∨
      ∃ rg sv db ed so,
        Invocation.list_resource_groups = Invocation.create_database rg sv db ed so ∧
        (dispatch invalidJson Invocation.list_resource_groups failCtx).1 =
          serverNotFoundText sv rg) :=
  ⟨by decide, C1_fault_converted_to_text invalidJson Invocation.list_resource_groups failCtx
    (by decide)⟩

end AzureSqlMcp
